import Mathlib

/-!
Shallow embedding of the Property Search & Analytics Query Engine
(`App/models.py`, `App/search.py` of the RealestateAgent repository),
together with theorems settling the specification claims about it.

Conventions of the embedding:
* Python `float` fields are modelled as `ℚ` (the engine never does real
  arithmetic on them beyond zero-tests and pass-through, so this is exact);
  Python `int` fields as `ℤ`.
* Python `Optional[T]` is `Option T`; Python truthiness tests
  (`if x:`) are modelled by explicit `pyTruthy*` helpers: `None`, `0`,
  `0.0`, `""` and `[]` are falsy.
* The OpenSearch backend is external: functions that perform a backend
  round trip take the backend's response as an explicit argument, with
  `Option`/a dedicated outcome type encoding the raised-exception case
  (the Python code wraps the call in `try/except`).
* Query bodies are modelled by a small clause AST (`Clause`,
  `SearchQuery`) mirroring exactly the dict shapes the source constructs.
-/

/-- Python truthiness of an `Optional[str]`: `None` and `""` are falsy. -/
def pyTruthyStr : Option String → Bool
  | none => false
  | some s => s != ""

/-- Python truthiness of an `Optional[float]`: `None` and `0.0` are falsy. -/
def pyTruthyQ : Option ℚ → Bool
  | none => false
  | some v => v != 0

/-- Python truthiness of an `Optional[int]`: `None` and `0` are falsy. -/
def pyTruthyZ : Option ℤ → Bool
  | none => false
  | some v => v != 0

/-- `PropertyLocation` from `App/models.py`. -/
structure PropertyLocation where
  address : String
  city : String
  state : String
  zip_code : String
  latitude : Option ℚ := none
  longitude : Option ℚ := none
  neighborhood : Option String := none
deriving DecidableEq, Repr

/-- `PropertyDetails` from `App/models.py`. -/
structure PropertyDetails where
  bedrooms : ℤ
  bathrooms : ℚ
  square_feet : Option ℤ := none
  lot_size : Option ℚ := none
  year_built : Option ℤ := none
  property_type : String
  parking : Option String := none
  amenities : Option (List String) := some []
deriving DecidableEq, Repr

/-- `Property` from `App/models.py`.  The `datetime` listing date is kept
as an opaque string; the engine only passes it through. -/
structure Property where
  id : String
  title : String
  description : Option String := none
  price : ℚ
  location : PropertyLocation
  details : PropertyDetails
  images : Option (List String) := some []
  listing_date : Option String := none
  status : String := "active"
  agent_contact : Option String := none
deriving DecidableEq, Repr

/-- `PropertySearchFilters` from `App/models.py`. -/
structure PropertySearchFilters where
  location : Option String := none
  min_price : Option ℚ := none
  max_price : Option ℚ := none
  bedrooms : Option ℤ := none
  bathrooms : Option ℤ := none
  property_type : Option String := none
  min_sqft : Option ℤ := none
  max_sqft : Option ℤ := none
  amenities : Option (List String) := none
deriving DecidableEq, Repr

/-- `PropertySearchRequest` from `App/models.py`.  The model field
constraints (`page ≥ 1`, `1 ≤ limit ≤ 100`) are pydantic validation;
here they appear as hypotheses of the theorems that need them.  The
flattened fields after `sort_order` are the legacy compatibility fields. -/
structure PropertySearchRequest where
  query : Option String := none
  filters : Option PropertySearchFilters := none
  page : ℤ := 1
  limit : ℤ := 10
  sort_by : Option String := some "price"
  sort_order : Option String := some "asc"
  location : Option String := none
  property_type : Option String := none
  min_price : Option ℚ := none
  max_price : Option ℚ := none
  min_bedrooms : Option ℤ := none
  max_bedrooms : Option ℤ := none
  min_bathrooms : Option ℤ := none
  max_bathrooms : Option ℤ := none
  min_sqft : Option ℤ := none
  max_sqft : Option ℤ := none
  amenities : Option (List String) := none
deriving DecidableEq, Repr

/-- `PropertySearchResponse` from `App/models.py`. -/
structure PropertySearchResponse where
  properties : List Property
  total : ℤ
  page : ℤ
  limit : ℤ
  total_pages : ℤ
deriving DecidableEq, Repr

/-- Value carried by an OpenSearch `term` clause in the compiled query. -/
inductive TermVal where
  | str (s : String)
  | int (n : ℤ)
deriving DecidableEq, Repr

/-- One clause of a compiled OpenSearch boolean query, mirroring the dict
shapes `_build_search_query` constructs.  `rangeF` carries float (`ℚ`)
bounds (price), `rangeI` integer bounds (bathrooms, square feet); an
absent dict key (`gte`/`lte` not set) is `none`. -/
inductive Clause where
  | multiMatch (query : String) (fields : List String)
  | rangeF (field : String) (gte lte : Option ℚ)
  | rangeI (field : String) (gte lte : Option ℤ)
  | term (field : String) (value : TermVal)
deriving DecidableEq, Repr

/-- The compiled query: either a `bool` query with `must` and `filter`
clause lists, or `match_all`. -/
inductive SearchQuery where
  | boolQuery (must : List Clause) (filter : List Clause)
  | matchAll
deriving DecidableEq, Repr

/-- The implicit status clause `{"term": {"status": "active"}}` appended
at `App/search.py:229-231`. -/
def activeClause : Clause := Clause.term "status" (TermVal.str "active")

/-- The free-text `multi_match` clause of `App/search.py:166-171`. -/
def textMustClauses (q : Option String) : List Clause :=
  if pyTruthyStr q then
    [Clause.multiMatch (q.getD "")
      ["title^2", "description", "location.address", "location.city",
       "location.neighborhood"]]
  else []

/-- The location `multi_match` clause of `App/search.py:178-184`,
produced from the nested filters when present. -/
def filtersMustClauses : Option PropertySearchFilters → List Clause
  | none => []
  | some f =>
    if pyTruthyStr f.location then
      [Clause.multiMatch (f.location.getD "")
        ["location.city", "location.state", "location.address",
         "location.neighborhood"]]
    else []

/-- The filter clauses built from the nested filters,
`App/search.py:186-226`, in source order: price range, bedrooms,
bathrooms, property type, square footage. -/
def filtersFilterClauses (f : PropertySearchFilters) : List Clause :=
  (if pyTruthyQ f.min_price || pyTruthyQ f.max_price then
    [Clause.rangeF "price"
      (if pyTruthyQ f.min_price then f.min_price else none)
      (if pyTruthyQ f.max_price then f.max_price else none)]
  else [])
  ++ (if pyTruthyZ f.bedrooms then
    [Clause.term "details.bedrooms" (TermVal.int (f.bedrooms.getD 0))]
  else [])
  ++ (if pyTruthyZ f.bathrooms then
    [Clause.rangeI "details.bathrooms" f.bathrooms none]
  else [])
  ++ (if pyTruthyStr f.property_type then
    [Clause.term "details.property_type" (TermVal.str (f.property_type.getD ""))]
  else [])
  ++ (if pyTruthyZ f.min_sqft || pyTruthyZ f.max_sqft then
    [Clause.rangeI "details.square_feet"
      (if pyTruthyZ f.min_sqft then f.min_sqft else none)
      (if pyTruthyZ f.max_sqft then f.max_sqft else none)]
  else [])

/-- The filter clauses from an optional filters value (`if
search_request.filters:` at `App/search.py:174`). -/
def filtersFilterClausesOpt : Option PropertySearchFilters → List Clause
  | none => []
  | some f => filtersFilterClauses f

/-- The full `must_clauses` list of `_build_search_query`
(`App/search.py:161-184`): free-text clause, then location clause. -/
def mustClauses (req : PropertySearchRequest) : List Clause :=
  textMustClauses req.query ++ filtersMustClauses req.filters

/-- The full `filter_clauses` list of `_build_search_query`
(`App/search.py:162-231`): nested-filter clauses, then the
unconditionally appended active-status clause. -/
def filterClauses (req : PropertySearchRequest) : List Clause :=
  filtersFilterClausesOpt req.filters ++ [activeClause]

/-- `_build_search_query` from `App/search.py:159-242`.  Note it reads
only `query` and `filters` of the request; the flattened legacy fields
are not consulted. -/
def _build_search_query (req : PropertySearchRequest) : SearchQuery :=
  if mustClauses req ≠ [] ∨ filterClauses req ≠ [] then
    SearchQuery.boolQuery (mustClauses req) (filterClauses req)
  else
    SearchQuery.matchAll

/-- One entry of the compiled sort directive list. -/
structure SortDirective where
  field : String
  order : String
deriving DecidableEq, Repr

/-- The `sort_map` dict of `App/search.py:246-252`. -/
def sort_map : List (String × String) :=
  [("price", "price"), ("date", "listing_date"),
   ("bedrooms", "details.bedrooms"), ("sqft", "details.square_feet"),
   ("relevance", "_score")]

/-- `_build_sort_criteria` from `App/search.py:244-261`.  `sort_by` and
`sort_order` are `Optional[str]` on the request model, so `None` can
reach this function; `sort_map.get(None, "price")` yields `"price"` and
`None == "desc"` is false, matching the `none` branches here. -/
def _build_sort_criteria (sort_by : Option String) (sort_order : Option String) :
    List SortDirective :=
  let field := match sort_by with
    | some k => (sort_map.lookup k).getD "price"
    | none => "price"
  let order := if sort_order = some "desc" then "desc" else "asc"
  if field = "_score" then
    [SortDirective.mk "_score" "desc"]
  else
    [SortDirective.mk field order]

/-- The backend's answer to the search round trip: parsed hits and the
`hits.total.value` count (`App/search.py:145-148`). -/
structure BackendSearchResponse where
  hits : List Property
  total : ℤ
deriving DecidableEq, Repr

/-- `search_properties` from `App/search.py:125-157`, as a function of
the request and the backend response.  `total_pages` is Python's
`(total + limit - 1) // limit`, i.e. floor division (`Int.fdiv`). -/
def search_properties (req : PropertySearchRequest) (backend : BackendSearchResponse) :
    PropertySearchResponse :=
  { properties := backend.hits
    total := backend.total
    page := req.page
    limit := req.limit
    total_pages := Int.fdiv (backend.total + req.limit - 1) req.limit }

/-- Outcome of the backend `client.get` call inside `get_property_by_id`
(`App/search.py:100-109`).  `notFound` is the `NotFoundError` the client
raises for an absent id; `backendError` is any other raised exception
(transport failure, query rejection, malformed document).  Both are
caught by the same `except Exception` handler. -/
inductive GetOutcome where
  | found (doc : Property)
  | notFound
  | backendError
deriving DecidableEq, Repr

/-- `get_property_by_id` from `App/search.py:100-109`: returns the parsed
document, and `None` whenever the backend call raised — whether because
the id was absent or because the backend failed. -/
def get_property_by_id : GetOutcome → Option Property
  | GetOutcome.found doc => some doc
  | GetOutcome.notFound => none
  | GetOutcome.backendError => none

/-- A string-keyed aggregation bucket (`key`, `doc_count`). -/
structure AggBucket where
  key : String
  doc_count : ℤ
deriving DecidableEq, Repr

/-- An integer-keyed aggregation bucket (bedroom distribution). -/
structure IntAggBucket where
  key : ℤ
  doc_count : ℤ
deriving DecidableEq, Repr

/-- A date-histogram bucket (`key_as_string`, `doc_count`). -/
structure DateAggBucket where
  key_as_string : String
  doc_count : ℤ
deriving DecidableEq, Repr

/-- The aggregation section of a successful backend response to the
location-trends query (`App/search.py:384-385`): the named metrics and
bucket lists `get_location_trends` reads.  A metric whose `value` is
JSON `null` is `none`. -/
structure TrendsAggs where
  total_properties : ℤ
  avg_price : Option ℚ
  median_price_values : List ℚ
  min_price : Option ℚ
  max_price : Option ℚ
  price_per_sqft : Option ℚ
  property_types : List AggBucket
  price_ranges : List AggBucket
  bedrooms_distribution : List IntAggBucket
  listing_dates : List DateAggBucket
deriving DecidableEq, Repr

/-- Python's `x or 0` applied to an optional float metric
(`App/search.py:393-397`): falsy values (`None`, `0.0`) become `0`. -/
def pyOrZeroQ : Option ℚ → ℚ
  | none => 0
  | some v => if v != 0 then v else 0

/-- `list(aggs['median_price']['values'].values())[0] if ... else 0`
(`App/search.py:394`): first percentile value, or `0` when the values
dict is empty. -/
def firstOrZero : List ℚ → ℚ
  | [] => 0
  | v :: _ => v

/-- The `summary` object of the location-trends result
(`App/search.py:391-414` and the zero-valued fallback at 422-433). -/
structure TrendsSummary where
  total_properties : ℤ
  average_price : ℚ
  median_price : ℚ
  min_price : ℚ
  max_price : ℚ
  avg_price_per_sqft : ℚ
  property_types : List (String × ℤ)
  price_ranges : List (String × ℤ)
  bedrooms_distribution : List (ℤ × ℤ)
  monthly_listings : List (String × ℤ)
deriving DecidableEq, Repr

/-- The full return value of `get_location_trends`. -/
structure LocationTrendsResult where
  location : String
  property_type : Option String
  time_period : String
  summary : TrendsSummary
deriving DecidableEq, Repr

/-- The all-zero summary returned on backend failure
(`App/search.py:422-433`). -/
def zeroTrendsSummary : TrendsSummary :=
  { total_properties := 0
    average_price := 0
    median_price := 0
    min_price := 0
    max_price := 0
    avg_price_per_sqft := 0
    property_types := []
    price_ranges := []
    bedrooms_distribution := []
    monthly_listings := [] }

/-- `get_location_trends` from `App/search.py:326-434`, as a function of
the inputs and the backend round-trip outcome (`none` models the raised
exception of the `try/except`, covering connection errors, query
rejection and malformed responses). -/
def get_location_trends (location : String) (property_type : Option String)
    (time_period : String) (backend : Option TrendsAggs) : LocationTrendsResult :=
  match backend with
  | some aggs =>
    { location := location
      property_type := property_type
      time_period := time_period
      summary :=
        { total_properties := aggs.total_properties
          average_price := pyOrZeroQ aggs.avg_price
          median_price := firstOrZero aggs.median_price_values
          min_price := pyOrZeroQ aggs.min_price
          max_price := pyOrZeroQ aggs.max_price
          avg_price_per_sqft := pyOrZeroQ aggs.price_per_sqft
          property_types := aggs.property_types.map (fun b => (b.key, b.doc_count))
          price_ranges := aggs.price_ranges.map (fun b => (b.key, b.doc_count))
          bedrooms_distribution :=
            aggs.bedrooms_distribution.map (fun b => (b.key, b.doc_count))
          monthly_listings :=
            aggs.listing_dates.map (fun b => (b.key_as_string, b.doc_count)) } }
  | none =>
    { location := location
      property_type := property_type
      time_period := time_period
      summary := zeroTrendsSummary }

/-- Does `needle` occur at the start of `hay`?  Building block for the
substring test. -/
def listStartsWith : List Char → List Char → Bool
  | _, [] => true
  | [], _ :: _ => false
  | a :: as, b :: bs => (a == b) && listStartsWith as bs

/-- Does `needle` occur contiguously anywhere in `hay`?  Model of
Python's `needle in hay` for strings. -/
def listContainsSub : List Char → List Char → Bool
  | [], needle => listStartsWith [] needle
  | a :: t, needle => listStartsWith (a :: t) needle || listContainsSub t needle

/-- Python's `query.lower() in key.lower()` (`App/search.py:314,319`):
case-insensitive substring containment.  Lowercasing is applied per
character, which is what `str.lower` does on the character sets the
engine stores. -/
def containsCI (hay needle : String) : Bool :=
  listContainsSub (hay.toList.map Char.toLower) (needle.toList.map Char.toLower)

/-- Python's `xs[:limit]` on a list, for an arbitrary (possibly
negative) integer `limit`: a negative bound counts from the end. -/
def pySliceTo (xs : List String) (limit : ℤ) : List String :=
  if 0 ≤ limit then xs.take limit.toNat
  else xs.take ((xs.length : ℤ) + limit).toNat

/-- The aggregation section of a successful backend response to the
location-suggestions query (`App/search.py:307-320`): the bucket keys of
the `unique_cities` and `unique_neighborhoods` terms aggregations. -/
structure SuggestAggs where
  unique_cities : List String
  unique_neighborhoods : List String
deriving DecidableEq, Repr

/-- `get_location_suggestions` from `App/search.py:263-324`, as a
function of the query, the limit, and the backend outcome (`none` models
the raised exception, returning `[]`).  City bucket keys are filtered by
case-insensitive containment of the query; neighborhood keys also pass
the truthiness guard `bucket['key'] and ...`.  `list(set(suggestions))`
is modelled by `List.dedup`: Python's set iteration order is
unspecified, and the claims about this function are order-independent
(membership, distinctness, length). -/
def get_location_suggestions (query : String) (limit : ℤ)
    (backend : Option SuggestAggs) : List String :=
  match backend with
  | none => []
  | some aggs =>
    let citySuggestions :=
      aggs.unique_cities.filter (fun k => containsCI k query)
    let neighborhoodSuggestions :=
      aggs.unique_neighborhoods.filter (fun k => (k != "") && containsCI k query)
    pySliceTo ((citySuggestions ++ neighborhoodSuggestions).dedup) limit

/-! ## Shared helper lemmas -/

/-- The compiled query always takes the `bool` branch: the filter clause
list ends with the unconditionally appended active-status clause, so it
is never empty and the `match_all` fallback is unreachable. -/
lemma build_query_eq_bool (req : PropertySearchRequest) :
    _build_search_query req = SearchQuery.boolQuery (mustClauses req) (filterClauses req) := by
  have hfl : filterClauses req ≠ [] := by simp [filterClauses]
  simp only [_build_search_query]
  rw [if_pos (Or.inr hfl)]

/-- Two requests whose `must` and `filter` clause lists agree compile to
the same query. -/
lemma build_query_congr {r1 r2 : PropertySearchRequest}
    (hm : mustClauses r1 = mustClauses r2) (hf : filterClauses r1 = filterClauses r2) :
    _build_search_query r1 = _build_search_query r2 := by
  simp only [_build_search_query, hm, hf]

/-! ## C1 -/

/-- C1: for every limit L ∈ [1,100] and backend total T ≥ 0, the
`search_properties` response echoes the requested page and limit, has
`total_pages = 0` when T = 0, and `total_pages = ⌈T / L⌉` when T > 0. -/
theorem search_properties_pagination (req : PropertySearchRequest)
    (backend : BackendSearchResponse) (h1 : 1 ≤ req.limit) (h2 : req.limit ≤ 100)
    (_h0 : 0 ≤ backend.total) :
    (search_properties req backend).page = req.page ∧
    (search_properties req backend).limit = req.limit ∧
    (backend.total = 0 → (search_properties req backend).total_pages = 0) ∧
    (0 < backend.total →
      (search_properties req backend).total_pages =
        ⌈(backend.total : ℚ) / (req.limit : ℚ)⌉) := by
  refine ⟨rfl, rfl, ?_, ?_⟩
  · intro hT
    show Int.fdiv (backend.total + req.limit - 1) req.limit = 0
    rw [hT, Int.fdiv_eq_ediv _ (by omega)]
    exact Int.ediv_eq_zero_of_lt (by omega) (by omega)
  · intro hT
    show Int.fdiv (backend.total + req.limit - 1) req.limit = _
    rw [Int.fdiv_eq_ediv _ (by omega)]
    have hL : (0 : ℚ) < (req.limit : ℚ) := by exact_mod_cast (by omega : (0 : ℤ) < req.limit)
    have hq := Int.ediv_add_emod (backend.total + req.limit - 1) req.limit
    have hr0 : 0 ≤ (backend.total + req.limit - 1) % req.limit :=
      Int.emod_nonneg _ (by omega)
    have hrL : (backend.total + req.limit - 1) % req.limit < req.limit :=
      Int.emod_lt_of_pos _ (by omega)
    set z := (backend.total + req.limit - 1) / req.limit with hz
    have hcomm : req.limit * z = z * req.limit := mul_comm _ _
    have hub : backend.total ≤ z * req.limit := by linarith
    have hlb : (z - 1) * req.limit < backend.total := by
      have hexp : (z - 1) * req.limit = z * req.limit - req.limit := sub_one_mul _ _
      linarith
    symm
    rw [Int.ceil_eq_iff]
    constructor
    · rw [lt_div_iff₀ hL]
      calc ((z : ℚ) - 1) * (req.limit : ℚ) = ((z - 1) * req.limit : ℤ) := by push_cast; ring
        _ < (backend.total : ℚ) := by exact_mod_cast hlb
    · rw [div_le_iff₀ hL]
      exact_mod_cast hub

/-- C1 witness: limit 10, total 25 gives page 1, limit 10, 3 pages. -/
theorem search_properties_pagination_witness :
    (1 : ℤ) ≤ 10 ∧ (0 : ℤ) < 25 ∧
    (search_properties { limit := 10 } { hits := [], total := 25 }).total_pages =
      ⌈(((25 : ℤ) : ℚ)) / (((10 : ℤ) : ℚ))⌉ := by
  refine ⟨by norm_num, by norm_num, ?_⟩
  exact (search_properties_pagination { limit := 10 } { hits := [], total := 25 }
    (by decide) (by decide) (by decide)).2.2.2 (by decide)

/-! ## C2 -/

/-- C2: every compiled search query is a `bool` query whose filter
clause list contains the `status = "active"` term clause — for every
request, including the fully empty one; no caller-supplied input can
remove it. -/
theorem active_status_filter_always_present (req : PropertySearchRequest) :
    ∃ must fl, _build_search_query req = SearchQuery.boolQuery must fl ∧
      activeClause ∈ fl := by
  refine ⟨mustClauses req, filterClauses req, build_query_eq_bool req, ?_⟩
  simp [filterClauses]

/-! ## C3 -/

/-- C3 counterexample: the fully empty request does not compile to
`match_all` — the unconditionally appended active-status filter makes
the `match_all` branch unreachable. -/
theorem empty_request_not_match_all :
    _build_search_query {} ≠ SearchQuery.matchAll := by decide

/-- C3 amended: the fully empty request compiles to a `bool` query with
no must clauses and exactly the single `status = "active"` filter
clause. -/
theorem empty_request_compiles_to_active_only :
    _build_search_query {} = SearchQuery.boolQuery [] [activeClause] := by decide

/-! ## C4 -/

/-- C4 counterexample: an unrecognized sort key with requested direction
`desc` compiles to price *descending*, not price ascending. -/
theorem sort_unknown_key_keeps_direction_cex :
    _build_sort_criteria (some "unknown") (some "desc") = [SortDirective.mk "price" "desc"] ∧
    SortDirective.mk "price" "desc" ≠ SortDirective.mk "price" "asc" := by decide

/-- C4 amended: sort key `relevance` always compiles to a descending
sort on `_score` regardless of the requested direction; a key outside
the sort table falls back to the `price` field but keeps the requested
direction (`desc` iff the requested direction is `"desc"`). -/
theorem sort_relevance_desc_unknown_price (key : String) (ord : Option String)
    (h : sort_map.lookup key = none) :
    _build_sort_criteria (some "relevance") ord = [SortDirective.mk "_score" "desc"] ∧
    _build_sort_criteria (some key) ord =
      [SortDirective.mk "price" (if ord = some "desc" then "desc" else "asc")] := by
  constructor
  · rfl
  · simp only [_build_sort_criteria, h, Option.getD_none]
    rw [if_neg (by decide)]

/-- C4 witness: the unrecognized key `"custom"` with direction `desc`. -/
theorem sort_criteria_witness :
    sort_map.lookup "custom" = none ∧
    (_build_sort_criteria (some "relevance") (some "desc") = [SortDirective.mk "_score" "desc"] ∧
     _build_sort_criteria (some "custom") (some "desc") =
       [SortDirective.mk "price"
         (if (some "desc" : Option String) = some "desc" then "desc" else "asc")]) :=
  ⟨by decide, sort_relevance_desc_unknown_price "custom" (some "desc") (by decide)⟩

/-! ## C5 -/

/-- C5 counterexample: a request whose filters set `min_price` to `0`
and leave `max_price` unset compiles with *no* price range clause at
all — the truthiness guard treats `0` as unset. -/
theorem min_price_zero_no_range_cex :
    _build_search_query { filters := some { min_price := some 0 } } =
      SearchQuery.boolQuery [] [activeClause] ∧
    Clause.rangeF "price" (some 0) none ∉ [activeClause] := by decide

/-- C5 amended: for every request whose filters set `min_price` to a
nonzero value and leave `max_price` unset, the compiled query contains a
price range filter clause with lower bound `gte = min_price` and no
upper bound. -/
theorem min_price_only_lower_bound (req : PropertySearchRequest)
    (f : PropertySearchFilters) (v : ℚ) (hf : req.filters = some f)
    (hmin : f.min_price = some v) (hv : v ≠ 0) (hmax : f.max_price = none) :
    ∃ must fl, _build_search_query req = SearchQuery.boolQuery must fl ∧
      Clause.rangeF "price" (some v) none ∈ fl := by
  refine ⟨mustClauses req, filterClauses req, build_query_eq_bool req, ?_⟩
  simp [filterClauses, filtersFilterClausesOpt, hf, filtersFilterClauses,
    hmin, hmax, pyTruthyQ, hv]

/-- C5 witness: `min_price = 150000`, `max_price` unset. -/
theorem min_price_only_witness :
    (150000 : ℚ) ≠ 0 ∧
    ∃ must fl,
      _build_search_query { filters := some { min_price := some 150000 } } =
        SearchQuery.boolQuery must fl ∧
      Clause.rangeF "price" (some 150000) none ∈ fl :=
  ⟨by norm_num,
   min_price_only_lower_bound _ { min_price := some 150000 } 150000 rfl rfl
     (by norm_num) rfl⟩

/-! ## C6 -/

/-- C6 counterexample: a request carrying `min_price` only as a
flattened top-level legacy field compiles differently from the
equivalent request with the value nested under `filters` — the legacy
field contributes no clause. -/
theorem legacy_flat_min_price_cex :
    _build_search_query { min_price := some 100000 } ≠
      _build_search_query { filters := some { min_price := some 100000 } } ∧
    _build_search_query { min_price := some 100000 } =
      SearchQuery.boolQuery [] [activeClause] := by decide

/-- C6 amended: `_build_search_query` reads only the free-text `query`
and the nested `filters` field of the request; the flattened top-level
legacy fields are ignored, so two requests agreeing on `query` and
`filters` compile identically whatever their legacy fields hold. -/
theorem legacy_fields_ignored (r1 r2 : PropertySearchRequest)
    (hq : r1.query = r2.query) (hf : r1.filters = r2.filters) :
    _build_search_query r1 = _build_search_query r2 :=
  build_query_congr (by simp only [mustClauses, hq, hf])
    (by simp only [filterClauses, hf])

/-- C6 witness: a request whose only content is the legacy top-level
`min_price` compiles exactly like the empty request. -/
theorem legacy_fields_ignored_witness :
    ({ min_price := some 100000 } : PropertySearchRequest).query =
      ({} : PropertySearchRequest).query ∧
    ({ min_price := some 100000 } : PropertySearchRequest).filters =
      ({} : PropertySearchRequest).filters ∧
    _build_search_query { min_price := some 100000 } = _build_search_query {} :=
  ⟨rfl, rfl, legacy_fields_ignored _ _ rfl rfl⟩

/-! ## C7 -/

/-- C7: on backend failure (`none` round-trip outcome), for every input,
`get_location_trends` returns the fully-populated structure whose
summary has `total_properties = 0`, every numeric metric `0`, and every
bucket list empty, instead of propagating the error. -/
theorem location_trends_backend_failure_zero (location : String)
    (property_type : Option String) (time_period : String) :
    get_location_trends location property_type time_period none =
      { location := location
        property_type := property_type
        time_period := time_period
        summary :=
          { total_properties := 0
            average_price := 0
            median_price := 0
            min_price := 0
            max_price := 0
            avg_price_per_sqft := 0
            property_types := []
            price_ranges := []
            bedrooms_distribution := []
            monthly_listings := [] } } := rfl

/-! ## C8 -/

/-- C8 counterexample: with a negative limit (which the HTTP layer does
not forbid), the result is not a list of at most `limit` elements — the
property is unsatisfiable for a negative bound, and Python's negative
slice keeps elements. -/
theorem location_suggestions_negative_limit_cex :
    ¬ (((get_location_suggestions "Austin" (-1)
        (some ⟨["Austin", "North Austin"], []⟩)).length : ℤ) ≤ -1) := by decide

/-- C8 amended: for every query string and every limit ≥ 0, the result
of `get_location_suggestions` is a duplicate-free list of at most
`limit` elements, each containing the query as a case-insensitive
substring and drawn from the returned city and neighborhood bucket keys;
and on backend failure it returns the empty list. -/
theorem location_suggestions_spec (q : String) (limit : ℤ) (aggs : SuggestAggs)
    (h : 0 ≤ limit) :
    get_location_suggestions q limit none = [] ∧
    (get_location_suggestions q limit (some aggs)).Nodup ∧
    ((get_location_suggestions q limit (some aggs)).length : ℤ) ≤ limit ∧
    ∀ s ∈ get_location_suggestions q limit (some aggs),
      containsCI s q = true ∧ s ∈ aggs.unique_cities ++ aggs.unique_neighborhoods := by
  have heq : get_location_suggestions q limit (some aggs) =
      ((aggs.unique_cities.filter fun k => containsCI k q) ++
        (aggs.unique_neighborhoods.filter fun k => (k != "") && containsCI k q)).dedup.take
          limit.toNat := by
    simp only [get_location_suggestions, pySliceTo, if_pos h]
  refine ⟨rfl, ?_, ?_, ?_⟩
  · rw [heq]
    exact List.Nodup.sublist (List.take_sublist _ _) (List.nodup_dedup _)
  · rw [heq]
    have hlen : (((aggs.unique_cities.filter fun k => containsCI k q) ++
        (aggs.unique_neighborhoods.filter fun k => (k != "") && containsCI k q)).dedup.take
          limit.toNat).length ≤ limit.toNat := by
      rw [List.length_take]
      exact min_le_left _ _
    omega
  · rw [heq]
    intro s hs
    have hs2 := List.mem_dedup.mp (List.mem_of_mem_take hs)
    rcases List.mem_append.mp hs2 with hc | hn
    · have hm := List.mem_filter.mp hc
      exact ⟨hm.2, List.mem_append.mpr (Or.inl hm.1)⟩
    · have hm := List.mem_filter.mp hn
      exact ⟨(Bool.and_eq_true_iff.mp hm.2).2, List.mem_append.mpr (Or.inr hm.1)⟩

/-- C8 witness: query `"Austin"`, limit 5, city buckets `Austin` and
`North Austin`, neighborhood bucket `Downtown`. -/
theorem location_suggestions_witness :
    (0 : ℤ) ≤ 5 ∧
    (get_location_suggestions "Austin" 5 none = [] ∧
     (get_location_suggestions "Austin" 5
        (some ⟨["Austin", "North Austin"], ["Downtown"]⟩)).Nodup ∧
     ((get_location_suggestions "Austin" 5
        (some ⟨["Austin", "North Austin"], ["Downtown"]⟩)).length : ℤ) ≤ 5 ∧
     ∀ s ∈ get_location_suggestions "Austin" 5
        (some ⟨["Austin", "North Austin"], ["Downtown"]⟩),
       containsCI s "Austin" = true ∧
       s ∈ (⟨["Austin", "North Austin"], ["Downtown"]⟩ : SuggestAggs).unique_cities ++
         (⟨["Austin", "North Austin"], ["Downtown"]⟩ : SuggestAggs).unique_neighborhoods) :=
  ⟨by norm_num,
   location_suggestions_spec "Austin" 5 ⟨["Austin", "North Austin"], ["Downtown"]⟩
     (by norm_num)⟩

/-! ## C9 -/

/-- C9 counterexample: a backend transport/query failure inside
`get_property_by_id` produces exactly the same caller-visible outcome as
the not-found case — both are `none`. -/
theorem get_property_failure_indistinguishable_cex :
    get_property_by_id GetOutcome.backendError = get_property_by_id GetOutcome.notFound :=
  rfl

/-- C9 amended: `get_property_by_id` returns `none` both when the id is
absent and on any other backend failure; the two outcomes are collapsed
and callers cannot distinguish them. -/
theorem get_property_none_on_not_found_and_failure :
    get_property_by_id GetOutcome.notFound = none ∧
    get_property_by_id GetOutcome.backendError = none :=
  ⟨rfl, rfl⟩

/-! ## C10 -/

/-- C10: setting a numeric filter field to zero (`min_price`,
`max_price`, `bedrooms` or `bathrooms`) compiles to exactly the same
query as leaving that field unset: the truthiness guards emit no clause
for a zero value. -/
theorem zero_numeric_filters_no_clause (req : PropertySearchRequest)
    (f : PropertySearchFilters) :
    (_build_search_query { req with filters := some { f with min_price := some 0 } } =
      _build_search_query { req with filters := some { f with min_price := none } }) ∧
    (_build_search_query { req with filters := some { f with max_price := some 0 } } =
      _build_search_query { req with filters := some { f with max_price := none } }) ∧
    (_build_search_query { req with filters := some { f with bedrooms := some 0 } } =
      _build_search_query { req with filters := some { f with bedrooms := none } }) ∧
    (_build_search_query { req with filters := some { f with bathrooms := some 0 } } =
      _build_search_query { req with filters := some { f with bathrooms := none } }) := by
  refine ⟨?_, ?_, ?_, ?_⟩ <;>
    exact build_query_congr
      (by simp [mustClauses, textMustClauses, filtersMustClauses])
      (by simp [filterClauses, filtersFilterClausesOpt, filtersFilterClauses,
        pyTruthyQ, pyTruthyZ])

